import Mathlib

/-!
Verification of the hostname/IP MCP server (`src/server.ts`).

The development shallowly embeds the two parts of the program the
specification talks about:

* the tool-call dispatch of `createServer` (the `CallToolRequestSchema`
  handler with its `get_hostname`, `get_ip_address` and default cases and
  the surrounding try/catch), and
* the HTTP session management of `startHttpServer` (the `transports`
  record, the POST/GET/DELETE route handlers, the `onsessioninitialized`
  and `onclose` callbacks, and the SIGINT shutdown loop).

OS calls (`os.hostname()`, `os.networkInterfaces()`) are modelled as
`Except`-valued oracles: a thrown exception is an `Except.error` carrying
the exception's message.  `JSON.stringify` of the single-field payload
objects the handlers build is modelled by the structured `JsonText` pair
(key and value) rather than by the concrete serialized string.
-/

namespace McpServer

/-! ### Tool-call dispatch (`createServer`, server.ts lines 59-138) -/

/-- One entry of `os.networkInterfaces()`: an address record with its
`address`, `family` and `internal` fields (the three fields the handler
reads). -/
structure NetAddr where
  address : String
  family : String
  internal : Bool
deriving DecidableEq, Repr

/-- The value of `os.networkInterfaces()`: interface names in OS-reported
(insertion) order, each mapped to its address list; a value can be
`undefined` (`none`), which the source guards with `if (addresses)`. -/
abbrev Interfaces := List (String × Option (List NetAddr))

/-- The informational content of `JSON.stringify(obj, null, 2)` for the
single-field objects the handlers produce (key and string value). -/
structure JsonText where
  key : String
  value : String
deriving DecidableEq, Repr

/-- One element of a tool result's `content` array. -/
structure ContentItem where
  type : String
  text : JsonText
deriving DecidableEq, Repr

/-- A tool-call result: `content` plus the `isError` flag (absent in the
source's success results, i.e. `false`). -/
structure ToolResult where
  content : List ContentItem
  isError : Bool := false
deriving DecidableEq, Repr

/-- The outcomes of the OS calls the handlers make; an `Except.error`
models the call throwing with that message. -/
structure OsWorld where
  hostname : Except String String
  networkInterfaces : Except String Interfaces
deriving Repr

/-- Inner loop of the `get_ip_address` case (lines 84-89): the first
address of the list whose family is "IPv4" and which is not internal;
the source breaks unconditionally at the first match, even when its
`address` string is empty. -/
def findIpInAddrs : List NetAddr → Option String
  | [] => none
  | a :: rest =>
    if a.family == "IPv4" && !a.internal then some a.address
    else findIpInAddrs rest

/-- JavaScript truthiness of the `ipAddress` variable
(`string | null`): `null` and the empty string are falsy. -/
def truthyIp : Option String → Bool
  | none => false
  | some s => !s.isEmpty

/-- Outer loop of the `get_ip_address` case (lines 78-94), threading the
`ipAddress` variable (`none` is `null`): iterate interfaces in order,
skip `undefined` entries, overwrite `ipAddress` when the inner loop found
a match, and break — `if (ipAddress) break`, line 90 — only when the
variable is truthy, so an empty-string match does not stop the loop and
a later interface can overwrite it. -/
def findIpLoop : Option String → Interfaces → Option String
  | ip, [] => ip
  | ip, (_, addrs?) :: rest =>
    match addrs? with
    | none => findIpLoop ip rest
    | some addrs =>
      let ip' := match findIpInAddrs addrs with
        | some a => some a
        | none => ip
      if truthyIp ip' then ip' else findIpLoop ip' rest

/-- The `ipAddress` variable when the outer loop ends, starting from its
`null` initialisation (line 78). -/
def findIp (ifs : Interfaces) : Option String := findIpLoop none ifs

/-- Success result shape shared by the handlers. -/
def mkOkResult (key value : String) : ToolResult :=
  { content := [{ type := "text", text := { key := key, value := value } }] }

/-- Error result shape: the payload is an error object and `isError` is
set, as built by the source's error returns and its catch block. -/
def mkErrorResult (msg : String) : ToolResult :=
  { content := [{ type := "text", text := { key := "error", value := msg } }],
    isError := true }

/-- Body of the `CallToolRequestSchema` handler before the catch (the
switch of lines 63-124): the two tool cases and the default case, which
throws `Unknown tool: <name>`.  In the `get_ip_address` case the final
`if (!ipAddress)` of line 96 treats both `null` and an empty string as
no-match, returning the error payload.  The request's `arguments` are
destructured by the source but never used, hence the unused `args`
parameter. -/
def callToolBody (w : OsWorld) (name : String) : Except String ToolResult :=
  match name with
  | "get_hostname" => do
    let h ← w.hostname
    pure (mkOkResult "hostname" h)
  | "get_ip_address" => do
    let ifs ← w.networkInterfaces
    match findIp ifs with
    | some ip =>
      if ip.isEmpty then pure (mkErrorResult "No external IPv4 address found")
      else pure (mkOkResult "ipAddress" ip)
    | none => pure (mkErrorResult "No external IPv4 address found")
  | _ => throw ("Unknown tool: " ++ name)

/-- The whole `CallToolRequestSchema` handler (lines 59-138): the switch
wrapped in try/catch; a thrown error is converted to a tool-level error
result carrying the error's message. -/
def callTool {α : Type} (w : OsWorld) (name : String) (_args : α) : ToolResult :=
  match callToolBody w name with
  | .ok r => r
  | .error msg => mkErrorResult msg

/-- The original claim's selection rule for `get_ip_address`, stated as
the spec words it: flatten all addresses in interface-then-address order
and take the first one that is IPv4 and not internal, with no further
condition on the address text. -/
def specFirstIp (ifs : Interfaces) : Option NetAddr :=
  (ifs.map (fun p => p.2.getD [])).flatten.find?
    (fun a => a.family == "IPv4" && !a.internal)

/-- Each interface's first IPv4 non-internal address (the only address
of an interface the inner loop can ever assign), in interface order;
interfaces with an `undefined` list or no qualifying address contribute
nothing. -/
def specInterfaceFirstMatches (ifs : Interfaces) : List NetAddr :=
  ifs.filterMap
    (fun p => (p.2.getD []).find? (fun a => a.family == "IPv4" && !a.internal))

/-- The amended selection rule matching the program's truthiness checks:
among the per-interface first qualifying addresses, in interface order,
the first one whose address string is non-empty. -/
def specSelectedIp (ifs : Interfaces) : Option NetAddr :=
  (specInterfaceFirstMatches ifs).find? (fun a => !a.address.isEmpty)

/-! ### HTTP session management (`startHttpServer`, server.ts lines 156-276)

The `transports` record (`Record<string, StreamableHTTPServerTransport>`)
is modelled as an association list with JavaScript-object semantics:
`mapLookup` is indexing, `mapInsert` is `transports[sid] = t` (overwrite
or append), `mapErase` is `delete transports[sid]`.

A transport is modelled by the two pieces of data the routing code reads:
its engine instance identity (`id`, the `Server` created by
`createServer()` and connected to it — one per transport, never shared)
and its `sessionId` field, which is `none` until the SDK transport
completes the initialization handshake.

The SDK transport itself is the spec's external Protocol Engine
collaborator: per its contract, `handleRequest` of a valid initialization
request assigns the generated session id, fires `onsessioninitialized`
(which line 177 uses to register the transport) and only then answers the
request, and `handleRequest` of a DELETE closes the transport, firing the
`onclose` of lines 182-188.  The route steps below embed the server.ts
branching verbatim and this contract for the engine-internal sequencing.
-/

/-- A registered transport: engine instance identity and assigned session
id (`none` before the handshake completed). -/
structure Transport where
  id : Nat
  sessionId : Option String
deriving DecidableEq, Repr

/-- The `transports` record: session id keys to transports. -/
abbrev SessionMap := List (String × Transport)

/-- JavaScript object indexing `transports[sid]`. -/
def mapLookup : SessionMap → String → Option Transport
  | [], _ => none
  | (k, t) :: rest, sid => if k = sid then some t else mapLookup rest sid

/-- JavaScript assignment `transports[sid] = t`: overwrite the existing
key or append a new one. -/
def mapInsert : SessionMap → String → Transport → SessionMap
  | [], sid, t => [(sid, t)]
  | (k, t') :: rest, sid, t =>
    if k = sid then (sid, t) :: rest else (k, t') :: mapInsert rest sid t

/-- JavaScript `delete transports[sid]`. -/
def mapErase : SessionMap → String → SessionMap
  | [], _ => []
  | (k, t) :: rest, sid =>
    if k = sid then mapErase rest sid else (k, t) :: mapErase rest sid

/-- Observable events of one route invocation, in order: a session
registration (`transports[sid] = transport` from `onsessioninitialized`),
an answer written by the engine with the given identity, or the 400
client-error response of the invalid branches. -/
inductive Event
  | registered (sid : String) (tid : Nat)
  | answered (tid : Nat)
  | rejected400
deriving DecidableEq, Repr

/-- The `onclose` callback installed at lines 182-188: read the
transport's own `sessionId`; if it is set and still maps to an entry,
delete that entry; otherwise do nothing. -/
def oncloseStep (ts : SessionMap) (t : Transport) : SessionMap :=
  match t.sessionId with
  | none => ts
  | some sid =>
    match mapLookup ts sid with
    | none => ts
    | some _ => mapErase ts sid

/-- The POST /mcp handler (lines 162-209).  `sid?` is the
`mcp-session-id` header (absent or falsy empty value is `none`), `isInit`
is `isInitializeRequest(req.body)`.  `newSid` is the value `randomUUID()`
returns and `newId` the identity of the `Server` instance created in the
initialization branch; both are only consumed by that branch.  In the
initialization branch the SDK transport assigns `newSid`, fires
`onsessioninitialized` — registering the transport, line 177 — and then
the new engine answers the initializing call. -/
def routePost (ts : SessionMap) (sid? : Option String) (isInit : Bool)
    (newSid : String) (newId : Nat) : SessionMap × List Event :=
  match sid? with
  | some sid =>
    match mapLookup ts sid with
    | some t => (ts, [.answered t.id])
    | none => (ts, [.rejected400])
  | none =>
    if isInit then
      let t : Transport := { id := newId, sessionId := some newSid }
      (mapInsert ts newSid t, [.registered newSid newId, .answered newId])
    else
      (ts, [.rejected400])

/-- The GET /mcp handler (lines 226-234): missing or unknown session id
is rejected with 400, otherwise the bound transport handles the read. -/
def routeGet (ts : SessionMap) (sid? : Option String) :
    SessionMap × List Event :=
  match sid? with
  | none => (ts, [.rejected400])
  | some sid =>
    match mapLookup ts sid with
    | none => (ts, [.rejected400])
    | some t => (ts, [.answered t.id])

/-- The DELETE /mcp handler (lines 237-252): missing or unknown session
id is rejected with 400; otherwise the bound transport handles the
termination, closing itself, which fires `onclose` and removes the
entry. -/
def routeDelete (ts : SessionMap) (sid? : Option String) :
    SessionMap × List Event :=
  match sid? with
  | none => (ts, [.rejected400])
  | some sid =>
    match mapLookup ts sid with
    | none => (ts, [.rejected400])
    | some t => (oncloseStep ts t, [.answered t.id])

/-- The SIGINT shutdown loop (lines 264-275).  `close` gives the outcome
of `transports[sessionId].close()` for each entry.  Each iteration tries
to close, then deletes the entry; a thrown close error is caught and only
logged, so the `delete` of line 269 is skipped and the entry stays.
Returns the session ids whose close was attempted (in iteration order)
and the record left when the loop ends. -/
def shutdownStep (close : String → Transport → Except String Unit) :
    SessionMap → List String × SessionMap
  | [] => ([], [])
  | (sid, t) :: rest =>
    let r := shutdownStep close rest
    match close sid t with
    | .ok _ => (sid :: r.1, r.2)
    | .error _ => (sid :: r.1, (sid, t) :: r.2)

/-- Session-mapping invariant: every entry's key is the `sessionId` of
the transport it maps to. -/
def SessionInv (ts : SessionMap) : Prop :=
  ∀ p ∈ ts, p.2.sessionId = some p.1

instance (ts : SessionMap) : Decidable (SessionInv ts) :=
  inferInstanceAs (Decidable (∀ p ∈ ts, p.2.sessionId = some p.1))

/-! ### Fault disposal on the HTTP routes

How each route handler disposes of a failure thrown by
`transport.handleRequest` (or of its normal completion), given whether a
response was already committed on the channel (`res.headersSent`). -/

/-- What a route handler does after `transport.handleRequest` returns or
throws: nothing further (the transport already wrote the response), a
fresh 500 response, a log line only, or the exception propagating out of
the route handler uncaught. -/
inductive FaultHandling
  | noFault
  | respond500
  | logOnly
  | propagate
deriving DecidableEq, Repr

/-- The catch block of POST /mcp (lines 210-222): a thrown error is
caught; a 500 response is written only when `res.headersSent` is false,
otherwise the error is only logged. -/
def postFaultStep (handle : Except String Unit) (headersSent : Bool) :
    FaultHandling :=
  match handle with
  | .ok _ => .noFault
  | .error _ => if headersSent then .logOnly else .respond500

/-- The catch block of DELETE /mcp (lines 243-251): same discipline as
the POST catch. -/
def deleteFaultStep (handle : Except String Unit) (headersSent : Bool) :
    FaultHandling :=
  match handle with
  | .ok _ => .noFault
  | .error _ => if headersSent then .logOnly else .respond500

/-- The GET /mcp handler (lines 226-234) has no try/catch around its
`transport.handleRequest` call: a thrown error propagates out of the
route handler uncaught, and no 500 response is written by server.ts. -/
def getFaultStep (handle : Except String Unit) (_headersSent : Bool) :
    FaultHandling :=
  match handle with
  | .ok _ => .noFault
  | .error _ => .propagate

/-! ### Helper lemmas -/

theorem findIpInAddrs_eq_find (addrs : List NetAddr) :
    findIpInAddrs addrs
      = (addrs.find? (fun a => a.family == "IPv4" && !a.internal)).map
          (fun a => a.address) := by
  induction addrs with
  | nil => rfl
  | cons a rest ih =>
    by_cases h : (a.family == "IPv4" && !a.internal) = true
    · simp [findIpInAddrs, h, List.find?]
    · simp only [Bool.not_eq_true] at h
      simp only [findIpInAddrs, h, List.find?, Bool.false_eq_true, if_false]
      exact ih

theorem findIpLoop_success (ifs : Interfaces) (a : NetAddr)
    (h : specSelectedIp ifs = some a) :
    ∀ ip, truthyIp ip = false → findIpLoop ip ifs = some a.address := by
  induction ifs with
  | nil => simp [specSelectedIp, specInterfaceFirstMatches] at h
  | cons p rest ih =>
    obtain ⟨nm, addrs?⟩ := p
    intro ip hip
    cases addrs? with
    | none =>
      have h' : specSelectedIp rest = some a := by
        simpa [specSelectedIp, specInterfaceFirstMatches,
          List.filterMap_cons] using h
      simpa [findIpLoop] using ih h' ip hip
    | some addrs =>
      have hfm := findIpInAddrs_eq_find addrs
      cases hfa : addrs.find? (fun a => a.family == "IPv4" && !a.internal) with
      | none =>
        rw [hfa] at hfm
        simp only [Option.map_none'] at hfm
        have h' : specSelectedIp rest = some a := by
          simpa [specSelectedIp, specInterfaceFirstMatches,
            List.filterMap_cons, hfa] using h
        simp only [findIpLoop, hfm, hip, Bool.false_eq_true, if_false]
        exact ih h' ip hip
      | some b =>
        rw [hfa] at hfm
        simp only [Option.map_some'] at hfm
        cases hb : b.address.isEmpty with
        | false =>
          have hab : a = b := by
            have h' := h
            simp only [specSelectedIp, specInterfaceFirstMatches,
              List.filterMap_cons, Option.getD_some, hfa, List.find?_cons,
              hb] at h'
            simpa using h'.symm
          subst hab
          simp [findIpLoop, hfm, truthyIp, hb]
        | true =>
          have h' : specSelectedIp rest = some a := by
            simpa [specSelectedIp, specInterfaceFirstMatches,
              List.filterMap_cons, hfa, List.find?_cons, hb] using h
          simp only [findIpLoop, hfm, truthyIp, hb, Bool.not_true,
            Bool.false_eq_true, if_false]
          exact ih h' (some b.address) (by simp [truthyIp, hb])

theorem findIpLoop_failure (ifs : Interfaces)
    (h : specSelectedIp ifs = none) :
    ∀ ip, truthyIp ip = false → truthyIp (findIpLoop ip ifs) = false := by
  induction ifs with
  | nil => intro ip hip; simpa [findIpLoop] using hip
  | cons p rest ih =>
    obtain ⟨nm, addrs?⟩ := p
    intro ip hip
    cases addrs? with
    | none =>
      have h' : specSelectedIp rest = none := by
        simpa [specSelectedIp, specInterfaceFirstMatches,
          List.filterMap_cons] using h
      simpa [findIpLoop] using ih h' ip hip
    | some addrs =>
      have hfm := findIpInAddrs_eq_find addrs
      cases hfa : addrs.find? (fun a => a.family == "IPv4" && !a.internal) with
      | none =>
        rw [hfa] at hfm
        simp only [Option.map_none'] at hfm
        have h' : specSelectedIp rest = none := by
          simpa [specSelectedIp, specInterfaceFirstMatches,
            List.filterMap_cons, hfa] using h
        simp only [findIpLoop, hfm, hip, Bool.false_eq_true, if_false]
        exact ih h' ip hip
      | some b =>
        rw [hfa] at hfm
        simp only [Option.map_some'] at hfm
        cases hb : b.address.isEmpty with
        | false =>
          exfalso
          simp [specSelectedIp, specInterfaceFirstMatches,
            List.filterMap_cons, hfa, List.find?_cons, hb] at h
        | true =>
          have h' : specSelectedIp rest = none := by
            simpa [specSelectedIp, specInterfaceFirstMatches,
              List.filterMap_cons, hfa, List.find?_cons, hb] using h
          simp only [findIpLoop, hfm, truthyIp, hb, Bool.not_true,
            Bool.false_eq_true, if_false]
          exact ih h' (some b.address) (by simp [truthyIp, hb])

/-! ### Map lemmas -/

theorem mapLookup_mem {ts : SessionMap} {sid : String} {t : Transport}
    (h : mapLookup ts sid = some t) : (sid, t) ∈ ts := by
  induction ts with
  | nil => simp [mapLookup] at h
  | cons p rest ih =>
    obtain ⟨k, t'⟩ := p
    by_cases hk : k = sid
    · subst hk
      simp [mapLookup] at h
      subst h
      exact List.mem_cons_self _ _
    · simp [mapLookup, hk] at h
      exact List.mem_cons_of_mem _ (ih h)

theorem mapLookup_insert (ts : SessionMap) (sid : String) (t : Transport) :
    mapLookup (mapInsert ts sid t) sid = some t := by
  induction ts with
  | nil => simp [mapInsert, mapLookup]
  | cons p rest ih =>
    obtain ⟨k, t'⟩ := p
    by_cases hk : k = sid
    · simp [mapInsert, hk, mapLookup]
    · simp [mapInsert, hk, mapLookup, ih]

theorem mapLookup_insert_ne (ts : SessionMap) (sid k : String)
    (t : Transport) (hne : k ≠ sid) :
    mapLookup (mapInsert ts sid t) k = mapLookup ts k := by
  have hsk : sid ≠ k := Ne.symm hne
  induction ts with
  | nil => simp [mapInsert, mapLookup, hsk]
  | cons p rest ih =>
    obtain ⟨k', t'⟩ := p
    by_cases hk : k' = sid
    · subst hk
      simp [mapInsert, mapLookup, hsk]
    · by_cases hk2 : k' = k
      · subst hk2
        simp [mapInsert, hk, mapLookup]
      · simp [mapInsert, hk, mapLookup, hk2, ih]

theorem mapInsert_length_of_fresh (ts : SessionMap) (sid : String)
    (t : Transport) (h : mapLookup ts sid = none) :
    (mapInsert ts sid t).length = ts.length + 1 := by
  induction ts with
  | nil => simp [mapInsert]
  | cons p rest ih =>
    obtain ⟨k, t'⟩ := p
    by_cases hk : k = sid
    · simp [mapLookup, hk] at h
    · simp only [mapLookup, hk, if_false] at h
      simp [mapInsert, hk, ih h]

theorem mem_mapInsert {ts : SessionMap} {sid : String} {t : Transport}
    {p : String × Transport} (h : p ∈ mapInsert ts sid t) :
    p = (sid, t) ∨ p ∈ ts := by
  induction ts with
  | nil => simpa [mapInsert] using h
  | cons q rest ih =>
    obtain ⟨k, t'⟩ := q
    by_cases hk : k = sid
    · subst hk
      simp [mapInsert] at h ⊢
      tauto
    · simp only [mapInsert, if_neg hk, List.mem_cons] at h ⊢
      tauto

theorem mem_mapErase {ts : SessionMap} {sid : String}
    {p : String × Transport} (h : p ∈ mapErase ts sid) : p ∈ ts := by
  induction ts with
  | nil => simp [mapErase] at h
  | cons q rest ih =>
    obtain ⟨k, t'⟩ := q
    by_cases hk : k = sid
    · simp only [mapErase, if_pos hk] at h
      exact List.mem_cons_of_mem _ (ih h)
    · simp only [mapErase, if_neg hk, List.mem_cons] at h
      rcases h with h | h
      · simp [h]
      · exact List.mem_cons_of_mem _ (ih h)

theorem mapLookup_erase_ne (ts : SessionMap) (sid k : String)
    (hne : k ≠ sid) : mapLookup (mapErase ts sid) k = mapLookup ts k := by
  have hsk : sid ≠ k := Ne.symm hne
  induction ts with
  | nil => simp [mapErase]
  | cons p rest ih =>
    obtain ⟨k', t'⟩ := p
    by_cases hk : k' = sid
    · subst hk
      simp [mapErase, mapLookup, hsk, ih]
    · by_cases hk2 : k' = k
      · subst hk2
        simp [mapErase, hk, mapLookup]
      · simp [mapErase, hk, mapLookup, hk2, ih]

theorem mem_shutdownStep {close : String → Transport → Except String Unit}
    {ts : SessionMap} {p : String × Transport}
    (h : p ∈ (shutdownStep close ts).2) : p ∈ ts := by
  induction ts with
  | nil => simp [shutdownStep] at h
  | cons q rest ih =>
    obtain ⟨k, t⟩ := q
    simp only [shutdownStep] at h
    cases hc : close k t with
    | ok u =>
      rw [hc] at h
      exact List.mem_cons_of_mem _ (ih h)
    | error e =>
      rw [hc] at h
      simp only [List.mem_cons] at h
      rcases h with h | h
      · simp [h]
      · exact List.mem_cons_of_mem _ (ih h)

/-! ### Claim theorems -/

/-- C4 counterexample: on an enumeration whose first qualifying address
in interface-then-address order has empty text, the claim's selection
rule picks that address and asserts the success payload for it, but the
program's truthiness checks treat the falsy string as no match: alone it
yields the error payload, and a qualifying address of a later interface
overrides it. -/
theorem get_ip_address_empty_string_counterexample :
    specFirstIp [("lo0", some [NetAddr.mk "" "IPv4" false])]
      = some (NetAddr.mk "" "IPv4" false)
    ∧ callTool
        (OsWorld.mk (.ok "h")
          (.ok [("lo0", some [NetAddr.mk "" "IPv4" false])]))
        "get_ip_address" ()
      ≠ mkOkResult "ipAddress" ""
    ∧ callTool
        (OsWorld.mk (.ok "h")
          (.ok [("lo0", some [NetAddr.mk "" "IPv4" false])]))
        "get_ip_address" ()
      = mkErrorResult "No external IPv4 address found"
    ∧ specFirstIp
        [("lo0", some [NetAddr.mk "" "IPv4" false]),
          ("eth0", some [NetAddr.mk "10.0.0.1" "IPv4" false])]
      = some (NetAddr.mk "" "IPv4" false)
    ∧ callTool
        (OsWorld.mk (.ok "h")
          (.ok [("lo0", some [NetAddr.mk "" "IPv4" false]),
            ("eth0", some [NetAddr.mk "10.0.0.1" "IPv4" false])]))
        "get_ip_address" ()
      = mkOkResult "ipAddress" "10.0.0.1" := by
  refine ⟨by decide, by decide, by decide, by decide, by decide⟩

/-- C4 (amended): for every result of the OS interface enumeration,
`get_ip_address` considers for each interface, in OS-reported order, only
that interface's first IPv4 non-internal address (in OS-reported address
order), and returns the ipAddress payload of the first such per-interface
match whose address string is non-empty (truthy); if no interface has a
truthy first match — in particular when no address qualifies at all — it
returns the fixed error payload with the error flag set; the handler is
total (never throws). -/
theorem get_ip_address_first_match {α : Type} (hn : Except String String)
    (ifs : Interfaces) (args : α) :
    callTool { hostname := hn, networkInterfaces := .ok ifs }
        "get_ip_address" args
      = match specSelectedIp ifs with
        | some a => mkOkResult "ipAddress" a.address
        | none => mkErrorResult "No external IPv4 address found" := by
  have hb : callToolBody { hostname := hn, networkInterfaces := .ok ifs }
      "get_ip_address"
      = match findIp ifs with
        | some ip =>
          if ip.isEmpty then
            .ok (mkErrorResult "No external IPv4 address found")
          else .ok (mkOkResult "ipAddress" ip)
        | none => .ok (mkErrorResult "No external IPv4 address found") := rfl
  cases h : specSelectedIp ifs with
  | some a =>
    have hloop : findIp ifs = some a.address :=
      findIpLoop_success ifs a h none rfl
    have hfind : List.find? (fun a => !a.address.isEmpty)
        (specInterfaceFirstMatches ifs) = some a := by
      simpa [specSelectedIp] using h
    have hne : a.address.isEmpty = false := by
      simpa using List.find?_some hfind
    rw [hloop] at hb
    simp [callTool, hb, hne]
  | none =>
    have hloop : truthyIp (findIp ifs) = false :=
      findIpLoop_failure ifs h none rfl
    cases hf : findIp ifs with
    | none =>
      rw [hf] at hb
      simp [callTool, hb]
    | some s =>
      rw [hf] at hloop
      have hs : s.isEmpty = true := by simpa [truthyIp] using hloop
      rw [hf] at hb
      simp [callTool, hb, hs]

/-- C5: for both tool handlers, every exception raised during execution
(modelled as an erroring OS call) is caught by the catch block and turned
into a tool-level error result carrying the exception's message; nothing
propagates out of `callTool`, which is total. -/
theorem handler_exceptions_caught {α : Type} (w : OsWorld) (args : α)
    (m : String) :
    (w.hostname = .error m →
      callTool w "get_hostname" args = mkErrorResult m)
    ∧ (w.networkInterfaces = .error m →
      callTool w "get_ip_address" args = mkErrorResult m) := by
  obtain ⟨whn, wni⟩ := w
  constructor
  · intro h
    have h' : whn = .error m := h
    subst h'
    rfl
  · intro h
    have h' : wni = .error m := h
    subst h'
    rfl

/-- C5 witness: with both OS calls throwing "boom", both handlers return
the tool-level error result carrying "boom". -/
theorem handler_exceptions_caught_witness :
    (OsWorld.mk (.error "boom") (.error "boom")).hostname = .error "boom"
    ∧ (OsWorld.mk (.error "boom") (.error "boom")).networkInterfaces
        = .error "boom"
    ∧ callTool (OsWorld.mk (.error "boom") (.error "boom"))
        "get_hostname" () = mkErrorResult "boom"
    ∧ callTool (OsWorld.mk (.error "boom") (.error "boom"))
        "get_ip_address" () = mkErrorResult "boom" :=
  ⟨rfl, rfl,
    (handler_exceptions_caught (OsWorld.mk (.error "boom") (.error "boom"))
      () "boom").1 rfl,
    (handler_exceptions_caught (OsWorld.mk (.error "boom") (.error "boom"))
      () "boom").2 rfl⟩

/-- C6: dispatch on any tool name other than `get_hostname` and
`get_ip_address` throws the `Unknown tool: <name>` error, which the catch
converts to a call-level error result carrying the offending name — for
every argument value, i.e. regardless of the input arguments' shape. -/
theorem unknown_tool_error {α : Type} (w : OsWorld) (args : α)
    (name : String) (h1 : name ≠ "get_hostname")
    (h2 : name ≠ "get_ip_address") :
    callTool w name args = mkErrorResult ("Unknown tool: " ++ name)
    ∧ (callTool w name args).isError = true := by
  have hbody : callToolBody w name = .error ("Unknown tool: " ++ name) := by
    unfold callToolBody
    split
    · exact absurd rfl h1
    · exact absurd rfl h2
    · rfl
  refine ⟨?_, ?_⟩ <;> simp [callTool, hbody, mkErrorResult]

/-- C6 witness: dispatching the unknown name "frobnicate" yields the
error result carrying that name. -/
theorem unknown_tool_error_witness :
    callTool (OsWorld.mk (.ok "host") (.ok [])) "frobnicate" ()
        = mkErrorResult ("Unknown tool: " ++ "frobnicate")
    ∧ (callTool (OsWorld.mk (.ok "host") (.ok [])) "frobnicate"
        ()).isError = true :=
  unknown_tool_error (OsWorld.mk (.ok "host") (.ok [])) () "frobnicate"
    (by decide) (by decide)

/-- C8: the result of `get_hostname` depends only on the OS-reported
hostname — two calls in worlds agreeing on the hostname oracle agree on
the result, whatever the arguments and all other state — and on an OS
hostname h the result is the hostname payload for h. -/
theorem get_hostname_deterministic {α β : Type} (w w' : OsWorld)
    (args : α) (args' : β) (h : w.hostname = w'.hostname) :
    callTool w "get_hostname" args = callTool w' "get_hostname" args'
    ∧ (∀ hn, w.hostname = .ok hn →
        callTool w "get_hostname" args = mkOkResult "hostname" hn) := by
  constructor
  · simp [callTool, callToolBody, Except.bind, h]
  · intro hn hok
    simp [callTool, callToolBody, Except.bind, hok]

/-- C8 witness: two worlds sharing the OS hostname "machine" but
differing in every other component give the same result, the hostname
payload for "machine". -/
theorem get_hostname_deterministic_witness :
    (OsWorld.mk (.ok "machine") (.ok [])).hostname
      = (OsWorld.mk (.ok "machine") (.error "down")).hostname
    ∧ (OsWorld.mk (.ok "machine") (.ok [])).hostname = .ok "machine"
    ∧ callTool (OsWorld.mk (.ok "machine") (.ok [])) "get_hostname" ()
      = callTool (OsWorld.mk (.ok "machine") (.error "down"))
          "get_hostname" (42 : Nat)
    ∧ callTool (OsWorld.mk (.ok "machine") (.ok [])) "get_hostname" ()
      = mkOkResult "hostname" "machine" :=
  ⟨rfl, rfl,
    (get_hostname_deterministic (OsWorld.mk (.ok "machine") (.ok []))
      (OsWorld.mk (.ok "machine") (.error "down")) () (42 : Nat) rfl).1,
    (get_hostname_deterministic (OsWorld.mk (.ok "machine") (.ok []))
      (OsWorld.mk (.ok "machine") (.error "down")) () (42 : Nat) rfl).2
      "machine" rfl⟩

/-- C2: a POST that is a valid initialization request with no session id,
when the generated id is fresh (the contract of `randomUUID`), registers
exactly one new session — keyed by the fresh id, bound to the new engine,
all other entries untouched — and the event trace shows the registration
happening before the initializing call is answered, by that same new
engine. -/
theorem init_post_creates_one_session (ts : SessionMap) (newSid : String)
    (newId : Nat) (hfresh : mapLookup ts newSid = none) :
    mapLookup (routePost ts none true newSid newId).1 newSid
        = some { id := newId, sessionId := some newSid }
    ∧ (routePost ts none true newSid newId).1.length = ts.length + 1
    ∧ (∀ k, k ≠ newSid →
        mapLookup (routePost ts none true newSid newId).1 k = mapLookup ts k)
    ∧ (routePost ts none true newSid newId).2
        = [.registered newSid newId, .answered newId] := by
  refine ⟨?_, ?_, ?_, rfl⟩
  · simpa [routePost] using mapLookup_insert ts newSid _
  · simpa [routePost] using mapInsert_length_of_fresh ts newSid _ hfresh
  · intro k hk
    simpa [routePost] using mapLookup_insert_ne ts newSid k _ hk

/-- C2 witness: initializing against the empty mapping with fresh id "s1"
and engine 1 registers exactly that one session and answers through
engine 1 after registering. -/
theorem init_post_creates_one_session_witness :
    mapLookup [] "s1" = none
    ∧ mapLookup (routePost [] none true "s1" 1).1 "s1"
        = some { id := 1, sessionId := some "s1" }
    ∧ (routePost [] none true "s1" 1).1.length = 0 + 1
    ∧ (routePost [] none true "s1" 1).2
        = [.registered "s1" 1, .answered 1] :=
  ⟨rfl, (init_post_creates_one_session [] "s1" 1 rfl).1,
    (init_post_creates_one_session [] "s1" 1 rfl).2.1,
    (init_post_creates_one_session [] "s1" 1 rfl).2.2.2⟩

/-- C3: a POST whose session id is missing on a non-initialization body,
and any POST, GET or DELETE whose session id does not map to a registered
session, is answered with the 400 client error and mutates nothing: the
mapping is returned unchanged, so in particular a DELETE of a closed or
never-existing session never silently succeeds. -/
theorem invalid_session_rejected (ts : SessionMap) (sid? : Option String)
    (newSid : String) (newId : Nat)
    (hmiss : ∀ sid, sid? = some sid → mapLookup ts sid = none) :
    (∀ isInit, (sid? = none → isInit = false) →
        routePost ts sid? isInit newSid newId = (ts, [.rejected400]))
    ∧ routeGet ts sid? = (ts, [.rejected400])
    ∧ routeDelete ts sid? = (ts, [.rejected400]) := by
  cases sid? with
  | none =>
    refine ⟨fun isInit hni => ?_, rfl, rfl⟩
    rw [hni rfl]
    rfl
  | some sid =>
    have h := hmiss sid rfl
    exact ⟨fun isInit _ => by simp [routePost, h],
      by simp [routeGet, h], by simp [routeDelete, h]⟩

/-- C3 witness: against a mapping holding only session "s1", requests for
the unknown id "s2" — a POST carrying an initialization body included —
and a no-id non-initialization POST are all rejected with 400 and leave
the mapping unchanged. -/
theorem invalid_session_rejected_witness :
    routePost [("s1", { id := 1, sessionId := some "s1" })] (some "s2")
        true "f" 9
      = ([("s1", { id := 1, sessionId := some "s1" })], [.rejected400])
    ∧ routeGet [("s1", { id := 1, sessionId := some "s1" })] (some "s2")
      = ([("s1", { id := 1, sessionId := some "s1" })], [.rejected400])
    ∧ routeDelete [("s1", { id := 1, sessionId := some "s1" })] (some "s2")
      = ([("s1", { id := 1, sessionId := some "s1" })], [.rejected400])
    ∧ routePost [("s1", { id := 1, sessionId := some "s1" })] none false
        "f" 9
      = ([("s1", { id := 1, sessionId := some "s1" })], [.rejected400]) :=
  ⟨(invalid_session_rejected _ (some "s2") "f" 9
      (fun sid h => by cases h; decide)).1 true (by intro h; cases h),
    (invalid_session_rejected _ (some "s2") "f" 9
      (fun sid h => by cases h; decide)).2.1,
    (invalid_session_rejected _ (some "s2") "f" 9
      (fun sid h => by cases h; decide)).2.2,
    (invalid_session_rejected _ none "f" 9
      (fun sid h => by cases h)).1 false (fun _ => rfl)⟩

/-- C10: a POST whose session id maps to a registered transport is
forwarded to that transport's engine whatever the body is — an
initialization body included — creating nothing and leaving the mapping
unchanged. -/
theorem known_session_post_reuses_engine (ts : SessionMap) (sid : String)
    (t : Transport) (isInit : Bool) (newSid : String) (newId : Nat)
    (h : mapLookup ts sid = some t) :
    routePost ts (some sid) isInit newSid newId = (ts, [.answered t.id]) := by
  simp [routePost, h]

/-- C10 witness: a POST with an initialization body and the registered id
"s1" is answered by the already-bound engine 5 and the mapping is
unchanged. -/
theorem known_session_post_reuses_engine_witness :
    mapLookup [("s1", { id := 5, sessionId := some "s1" })] "s1"
      = some { id := 5, sessionId := some "s1" }
    ∧ routePost [("s1", { id := 5, sessionId := some "s1" })] (some "s1")
        true "f" 9
      = ([("s1", { id := 5, sessionId := some "s1" })], [.answered 5]) :=
  ⟨rfl, known_session_post_reuses_engine _ "s1"
    { id := 5, sessionId := some "s1" } true "f" 9 rfl⟩

/-- C9: the key-matches-sessionId invariant of the `transports` record is
preserved by every operation — the POST routes (registration adds the
entry keyed by the transport's own fresh session id), GET, DELETE, the
`onclose` callback and the shutdown loop — and `onclose` removes at most
the entry keyed by the closing transport's own session id: every other
key is untouched, and a transport closing before initialization
(`sessionId` still unset) removes nothing. -/
theorem transports_key_invariant :
    (∀ ts sid? isInit newSid newId, SessionInv ts →
        SessionInv (routePost ts sid? isInit newSid newId).1)
    ∧ (∀ ts sid?, SessionInv ts → SessionInv (routeGet ts sid?).1)
    ∧ (∀ ts sid?, SessionInv ts → SessionInv (routeDelete ts sid?).1)
    ∧ (∀ ts t, SessionInv ts → SessionInv (oncloseStep ts t))
    ∧ (∀ close ts, SessionInv ts → SessionInv (shutdownStep close ts).2)
    ∧ (∀ ts t k, t.sessionId ≠ some k →
        mapLookup (oncloseStep ts t) k = mapLookup ts k)
    ∧ (∀ ts t, t.sessionId = none → oncloseStep ts t = ts) := by
  have honclose : ∀ ts t, SessionInv ts → SessionInv (oncloseStep ts t) := by
    intro ts t hinv
    cases hs : t.sessionId with
    | none => simpa [oncloseStep, hs] using hinv
    | some sid =>
      cases hl : mapLookup ts sid with
      | none => simpa [oncloseStep, hs, hl] using hinv
      | some t' =>
        simp only [oncloseStep, hs, hl]
        exact fun p hp => hinv p (mem_mapErase hp)
  refine ⟨?_, ?_, ?_, honclose, ?_, ?_, ?_⟩
  · intro ts sid? isInit newSid newId hinv
    cases sid? with
    | some sid =>
      cases h : mapLookup ts sid with
      | none => simpa [routePost, h] using hinv
      | some t => simpa [routePost, h] using hinv
    | none =>
      cases isInit with
      | false => exact hinv
      | true =>
        intro p hp
        rcases mem_mapInsert (by simpa [routePost] using hp) with h | h
        · subst h
          rfl
        · exact hinv p h
  · intro ts sid? hinv
    cases sid? with
    | none => exact hinv
    | some sid =>
      cases h : mapLookup ts sid with
      | none => simpa [routeGet, h] using hinv
      | some t => simpa [routeGet, h] using hinv
  · intro ts sid? hinv
    cases sid? with
    | none => exact hinv
    | some sid =>
      cases h : mapLookup ts sid with
      | none => simpa [routeDelete, h] using hinv
      | some t => simpa [routeDelete, h] using honclose ts t hinv
  · intro close ts hinv
    exact fun p hp => hinv p (mem_shutdownStep hp)
  · intro ts t k hne
    cases hs : t.sessionId with
    | none => simp [oncloseStep, hs]
    | some sid =>
      cases hl : mapLookup ts sid with
      | none => simp [oncloseStep, hs, hl]
      | some t' =>
        simp only [oncloseStep, hs, hl]
        exact mapLookup_erase_ne ts sid k (fun h => hne (by rw [hs, h]))
  · intro ts t h
    simp [oncloseStep, h]

/-- C9 witness: a two-session mapping satisfies the invariant, it is
preserved when the transport of "s1" closes itself, that close leaves the
entry of "s2" alone, and a never-initialized transport's close changes
nothing. -/
theorem transports_key_invariant_witness :
    SessionInv [("s1", { id := 1, sessionId := some "s1" }),
      ("s2", { id := 2, sessionId := some "s2" })]
    ∧ SessionInv (oncloseStep
        [("s1", { id := 1, sessionId := some "s1" }),
          ("s2", { id := 2, sessionId := some "s2" })]
        { id := 1, sessionId := some "s1" })
    ∧ mapLookup (oncloseStep
        [("s1", { id := 1, sessionId := some "s1" }),
          ("s2", { id := 2, sessionId := some "s2" })]
        { id := 1, sessionId := some "s1" }) "s2"
      = mapLookup [("s1", { id := 1, sessionId := some "s1" }),
          ("s2", { id := 2, sessionId := some "s2" })] "s2"
    ∧ oncloseStep [("s1", { id := 1, sessionId := some "s1" })]
        { id := 3, sessionId := none }
      = [("s1", { id := 1, sessionId := some "s1" })] :=
  ⟨by decide,
    transports_key_invariant.2.2.2.1 _ _ (by decide),
    transports_key_invariant.2.2.2.2.2.1 _
      { id := 1, sessionId := some "s1" } "s2" (by decide),
    transports_key_invariant.2.2.2.2.2.2 _
      { id := 3, sessionId := none } rfl⟩

/-- C1 counterexample: with one registered session whose close throws,
the SIGINT loop catches the error after the skipped `delete`, so the
mapping is not empty when the loop ends — refuting the claim that the
post-state mapping is empty regardless of individual close failures. -/
theorem shutdown_leaves_failed_entry :
    (shutdownStep (fun _ _ => .error "close failed")
        [("s1", { id := 1, sessionId := some "s1" })]).2 ≠ [] := by
  decide

/-- C1 (amended): the SIGINT loop attempts the close of every registered
session in iteration order — a failing close is caught and does not
prevent the remaining attempts — and when it ends the mapping holds
exactly the entries whose close failed (so it is empty precisely when
every close succeeded, not regardless of failures). -/
theorem shutdown_attempts_all_keeps_failures
    (close : String → Transport → Except String Unit) (ts : SessionMap) :
    (shutdownStep close ts).1 = ts.map Prod.fst
    ∧ (shutdownStep close ts).2
      = ts.filter (fun p =>
          match close p.1 p.2 with
          | .ok _ => false
          | .error _ => true) := by
  induction ts with
  | nil => exact ⟨rfl, rfl⟩
  | cons q rest ih =>
    obtain ⟨k, t⟩ := q
    simp only [shutdownStep, List.map_cons, List.filter_cons]
    cases hc : close k t with
    | ok u => simpa [hc] using ih
    | error e => simpa [hc] using ih

/-- C7 counterexample: a failure of `transport.handleRequest` on the GET
route with no response committed does not produce the 500 response the
claim requires — the GET handler has no catch, so the exception
propagates — refuting the 500-iff-uncommitted claim for every request. -/
theorem get_fault_writes_no_500 :
    getFaultStep (.error "stream failure") false ≠ .respond500 := by
  decide

/-- C7 (amended): on the POST and DELETE routes an unexpected failure is
answered with the 500 server error exactly when no response has been sent
on the channel and is only logged otherwise, and no 500 is written
without a failure; on the GET route a failure instead propagates out of
the handler uncaught, with no 500 written by the server. -/
theorem fault_disposal_policy (m : String) (headersSent : Bool) :
    postFaultStep (.error m) headersSent
      = (if headersSent then .logOnly else .respond500)
    ∧ deleteFaultStep (.error m) headersSent
      = (if headersSent then .logOnly else .respond500)
    ∧ postFaultStep (.ok ()) headersSent = .noFault
    ∧ deleteFaultStep (.ok ()) headersSent = .noFault
    ∧ getFaultStep (.error m) headersSent = .propagate
    ∧ getFaultStep (.ok ()) headersSent = .noFault :=
  ⟨rfl, rfl, rfl, rfl, rfl, rfl⟩

end McpServer
